import Mathlib

/-!
# Trace-event sending of the garbage collector (`gcTraceSend.cpp`)

A shallow embedding of
`hotspot/src/share/vm/gc_implementation/shared/gcTraceSend.cpp`.

* An event object with its setters and `commit()` becomes a value of
  `TraceEvent`; `commit()` appends it to the `committed` list of a `TraceSink`.
* `should_commit()` of an event class is the enablement query of the trace
  framework, read from `Tracing.should_commit`.
* Every call of a `to_trace_struct` overload is recorded in
  `TraceSink.converted`, tagged with the event class whose field it fills.
* Explicit C casts are kept: `(u1)`, `(u2)` and `(TraceAddress)` reduce modulo
  the width of the target type.
* `ShouldNotReachHere()` and `Unimplemented()` end the call with a `Fault`.
-/

namespace GCTraceSend

/-! ## Trace framework -/

/-- The four event classes `PhaseSender::send_phase<T>` is instantiated with. -/
inductive PauseEventType
  | EventGCPhasePause
  | EventGCPhasePauseLevel1
  | EventGCPhasePauseLevel2
  | EventGCPhasePauseLevel3
  deriving DecidableEq, Repr

/-- The event classes constructed in `gcTraceSend.cpp`. -/
inductive EventKind
  | EventGCGarbageCollection
  | EventGCReferenceStatistics
  | EventGCParallelOld
  | EventGCYoungGarbageCollection
  | EventGCOldGarbageCollection
  | EventPromotionFailed
  | EventConcurrentModeFailure
  | EventGCG1GarbageCollection
  | EventGCHeapSummary
  | EventPSHeapSummary
  | EventPermGenSummary
  | pause (T : PauseEventType)
  deriving DecidableEq, Repr

/-- What `gcTraceSend.cpp` takes from outside, as parameters: `should_commit`
is the answer of `should_commit()` for a freshly constructed event of each
class (`trace/tracing.hpp`); `address_bits` is the width of a native pointer,
which is also the width of `uintptr_t` and so of `TraceAddress`. -/
structure Tracing where
  should_commit : EventKind → Bool
  address_bits : Nat

/-- The cast `(u1) x`. -/
def u1 (x : Nat) : Nat := x % 2 ^ 8

/-- The cast `(u2) x`. -/
def u2 (x : Nat) : Nat := x % 2 ^ 16

/-- The cast `(TraceAddress) p`, with `typedef uintptr_t TraceAddress`. -/
def TraceAddress (tr : Tracing) (p : Nat) : Nat := p % 2 ^ tr.address_bits

/-! ## Inputs handed over by the collector -/

/-- The shared per-cycle information `_shared_gc_info`. -/
structure SharedGCInfo where
  id : Nat
  name : String
  cause : Nat
  sum_of_pauses : Int
  longest_pause : Int
  start_timestamp : Int
  end_timestamp : Int
  deriving DecidableEq, Repr

/-- The thread object `cf_info.thread()` points to. -/
structure OSThread where
  thread_id : Nat
  deriving DecidableEq, Repr

structure CopyFailedInfo where
  failed_count : Nat
  first_size : Nat
  smallest_size : Nat
  total_size : Nat
  thread : OSThread
  deriving DecidableEq, Repr

structure PromotionFailedInfo extends CopyFailedInfo
  deriving DecidableEq, Repr

structure VirtualSpaceSummary where
  start : Nat
  committed_end : Nat
  committed_size : Nat
  reserved_end : Nat
  reserved_size : Nat
  deriving DecidableEq, Repr

structure SpaceSummary where
  start : Nat
  end_ : Nat
  used : Nat
  size : Nat
  deriving DecidableEq, Repr

structure GCHeapSummary where
  heap : VirtualSpaceSummary
  used : Nat
  deriving DecidableEq, Repr

structure PSHeapSummary extends GCHeapSummary where
  old : VirtualSpaceSummary
  old_space : SpaceSummary
  young : VirtualSpaceSummary
  eden : SpaceSummary
  from_ : SpaceSummary
  to_ : SpaceSummary
  deriving DecidableEq, Repr

structure PermGenSummary where
  perm_space : VirtualSpaceSummary
  object_space : SpaceSummary
  deriving DecidableEq, Repr

/-- What every phase object answers: `name()`, `level()`, `start()`, `end()`. -/
structure PhaseData where
  name : String
  level : Int
  start : Int
  end_ : Int
  deriving DecidableEq, Repr

/-- Modelled from the spec: the phase classes of `gcTimer.hpp`, which is not
part of the sources at hand. A phase node is of the non-leaf-marker kind
(`base`: a `GCPhase` that is neither of the two subclasses), of the concurrent
kind (`ConcurrentPhase`) or of the pause kind (`PausePhase`). -/
inductive GCPhase
  | base (d : PhaseData)
  | concurrent (d : PhaseData)
  | pause (d : PhaseData)
  deriving DecidableEq, Repr

/-- Modelled from the spec: the heap summary classes of `gcHeapSummary.hpp`,
not part of the sources at hand. A summary is the uniform `GCHeapSummary` or
the multi-generation `PSHeapSummary`. -/
inductive HeapSummary
  | GCHeapSummary (s : GCHeapSummary)
  | PSHeapSummary (s : PSHeapSummary)
  deriving DecidableEq, Repr

/-- Modelled from the spec: the constant `PhasesStack::PHASE_LEVELS` of
`gcTimer.hpp`, the number of supported phase levels, fixed at 5. -/
def PHASE_LEVELS : Nat := 5

/-! ## Wire records -/

structure TraceStructCopyFailed where
  objectCount : Nat
  firstSize : Nat
  smallestSize : Nat
  totalSize : Nat
  thread : Nat
  deriving DecidableEq, Repr

structure TraceStructVirtualSpace where
  start : Nat
  committedEnd : Nat
  committedSize : Nat
  reservedEnd : Nat
  reservedSize : Nat
  deriving DecidableEq, Repr

structure TraceStructObjectSpace where
  start : Nat
  end_ : Nat
  used : Nat
  size : Nat
  deriving DecidableEq, Repr

/-- A committed event: one constructor per event class, its arguments the
values given to the setters, in the order the setters are called. -/
inductive TraceEvent
  | GCGarbageCollection (gcId : Nat) (name : String) (cause : Nat)
      (sumOfPauses longestPause starttime endtime : Int)
  | GCReferenceStatistics (gcId type count : Nat)
  | GCParallelOld (gcId densePrefix : Nat) (starttime endtime : Int)
  | GCYoungGarbageCollection (gcId tenuringThreshold : Nat) (starttime endtime : Int)
  | GCOldGarbageCollection (gcId : Nat) (starttime endtime : Int)
  | PromotionFailed (gcId : Nat) (data : TraceStructCopyFailed)
  | ConcurrentModeFailure (gcId : Nat)
  | GCG1GarbageCollection (gcId type : Nat) (starttime endtime : Int)
  | GCHeapSummary (gcId when : Nat) (heapSpace : TraceStructVirtualSpace) (heapUsed : Nat)
  | PSHeapSummary (gcId when : Nat) (oldSpace : TraceStructVirtualSpace)
      (oldObjectSpace : TraceStructObjectSpace) (youngSpace : TraceStructVirtualSpace)
      (edenSpace fromSpace toSpace : TraceStructObjectSpace)
  | PermGenSummary (gcId when : Nat) (permSpace : TraceStructVirtualSpace)
      (objectSpace : TraceStructObjectSpace)
  | GCPhasePause (T : PauseEventType) (gcId : Nat) (name : String) (starttime endtime : Int)
  deriving DecidableEq, Repr

/-- The event class of a committed event. -/
def TraceEvent.kind : TraceEvent → EventKind
  | .GCGarbageCollection .. => .EventGCGarbageCollection
  | .GCReferenceStatistics .. => .EventGCReferenceStatistics
  | .GCParallelOld .. => .EventGCParallelOld
  | .GCYoungGarbageCollection .. => .EventGCYoungGarbageCollection
  | .GCOldGarbageCollection .. => .EventGCOldGarbageCollection
  | .PromotionFailed .. => .EventPromotionFailed
  | .ConcurrentModeFailure .. => .EventConcurrentModeFailure
  | .GCG1GarbageCollection .. => .EventGCG1GarbageCollection
  | .GCHeapSummary .. => .EventGCHeapSummary
  | .PSHeapSummary .. => .EventPSHeapSummary
  | .PermGenSummary .. => .EventPermGenSummary
  | .GCPhasePause T .. => .pause T

/-- The value given to `set_gcId` of a committed event. -/
def TraceEvent.gcId : TraceEvent → Nat
  | .GCGarbageCollection id .. => id
  | .GCReferenceStatistics id .. => id
  | .GCParallelOld id .. => id
  | .GCYoungGarbageCollection id .. => id
  | .GCOldGarbageCollection id .. => id
  | .PromotionFailed id .. => id
  | .ConcurrentModeFailure id => id
  | .GCG1GarbageCollection id .. => id
  | .GCHeapSummary id .. => id
  | .PSHeapSummary id .. => id
  | .PermGenSummary id .. => id
  | .GCPhasePause _ id .. => id

/-- What the external sink has seen: the committed events, oldest first, and
one entry per `to_trace_struct` call, tagged with the event class the
conversion was made for. -/
structure TraceSink where
  committed : List TraceEvent
  converted : List EventKind
  deriving DecidableEq, Repr

/-- A sink that has seen nothing. -/
def TraceSink.empty : TraceSink := ⟨[], []⟩

/-- The call `e.commit()`. -/
def TraceSink.commit (s : TraceSink) (e : TraceEvent) : TraceSink :=
  { s with committed := s.committed ++ [e] }

/-- The call counter of the converters: one `to_trace_struct` call made while
filling an event of class `k`. -/
def TraceSink.count_conversion (s : TraceSink) (k : EventKind) : TraceSink :=
  { s with converted := s.converted ++ [k] }

/-! ## Tracers -/

structure GCTracer where
  _shared_gc_info : SharedGCInfo
  deriving DecidableEq, Repr

structure ParallelOldGCInfo where
  dense_prefix : Nat
  deriving DecidableEq, Repr

structure ParallelOldTracer extends GCTracer where
  _parallel_old_gc_info : ParallelOldGCInfo
  deriving DecidableEq, Repr

structure YoungGCTracer extends GCTracer where
  _tenuring_threshold : Nat
  deriving DecidableEq, Repr

structure OldGCTracer extends GCTracer
  deriving DecidableEq, Repr

structure CMSTracer extends GCTracer
  deriving DecidableEq, Repr

structure G1YoungGCInfo where
  type : Nat
  deriving DecidableEq, Repr

structure G1NewTracer extends GCTracer where
  _g1_young_gc_info : G1YoungGCInfo
  deriving DecidableEq, Repr

/-! ## Event emission (lines 40-134) -/

def GCTracer.send_garbage_collection_event (tr : Tracing) (self : GCTracer)
    (s : TraceSink) : TraceSink :=
  if tr.should_commit .EventGCGarbageCollection then
    s.commit (.GCGarbageCollection
      self._shared_gc_info.id
      self._shared_gc_info.name
      (u2 self._shared_gc_info.cause)
      self._shared_gc_info.sum_of_pauses
      self._shared_gc_info.longest_pause
      self._shared_gc_info.start_timestamp
      self._shared_gc_info.end_timestamp)
  else s

def GCTracer.send_reference_stats_event (tr : Tracing) (self : GCTracer)
    (type count : Nat) (s : TraceSink) : TraceSink :=
  if tr.should_commit .EventGCReferenceStatistics then
    s.commit (.GCReferenceStatistics self._shared_gc_info.id (u1 type) count)
  else s

def ParallelOldTracer.send_parallel_old_event (tr : Tracing) (self : ParallelOldTracer)
    (s : TraceSink) : TraceSink :=
  if tr.should_commit .EventGCParallelOld then
    s.commit (.GCParallelOld
      self._shared_gc_info.id
      (TraceAddress tr self._parallel_old_gc_info.dense_prefix)
      self._shared_gc_info.start_timestamp
      self._shared_gc_info.end_timestamp)
  else s

def YoungGCTracer.send_young_gc_event (tr : Tracing) (self : YoungGCTracer)
    (s : TraceSink) : TraceSink :=
  if tr.should_commit .EventGCYoungGarbageCollection then
    s.commit (.GCYoungGarbageCollection
      self._shared_gc_info.id
      self._tenuring_threshold
      self._shared_gc_info.start_timestamp
      self._shared_gc_info.end_timestamp)
  else s

def OldGCTracer.send_old_gc_event (tr : Tracing) (self : OldGCTracer)
    (s : TraceSink) : TraceSink :=
  if tr.should_commit .EventGCOldGarbageCollection then
    s.commit (.GCOldGarbageCollection
      self._shared_gc_info.id
      self._shared_gc_info.start_timestamp
      self._shared_gc_info.end_timestamp)
  else s

/-- The overload `to_trace_struct(const CopyFailedInfo&)`. -/
def CopyFailedInfo.to_trace_struct (cf_info : CopyFailedInfo) : TraceStructCopyFailed :=
  { objectCount := cf_info.failed_count
    firstSize := cf_info.first_size
    smallestSize := cf_info.smallest_size
    totalSize := cf_info.total_size
    thread := cf_info.thread.thread_id }

def YoungGCTracer.send_promotion_failed_event (tr : Tracing) (self : YoungGCTracer)
    (pf_info : PromotionFailedInfo) (s : TraceSink) : TraceSink :=
  if tr.should_commit .EventPromotionFailed then
    let s := s.count_conversion .EventPromotionFailed
    s.commit (.PromotionFailed self._shared_gc_info.id pf_info.toCopyFailedInfo.to_trace_struct)
  else s

def CMSTracer.send_concurrent_mode_failure_event (tr : Tracing) (self : CMSTracer)
    (s : TraceSink) : TraceSink :=
  if tr.should_commit .EventConcurrentModeFailure then
    s.commit (.ConcurrentModeFailure self._shared_gc_info.id)
  else s

def G1NewTracer.send_g1_young_gc_event (tr : Tracing) (self : G1NewTracer)
    (s : TraceSink) : TraceSink :=
  if tr.should_commit .EventGCG1GarbageCollection then
    s.commit (.GCG1GarbageCollection
      self._shared_gc_info.id
      self._g1_young_gc_info.type
      self._shared_gc_info.start_timestamp
      self._shared_gc_info.end_timestamp)
  else s

/-! ## Struct converters and heap summaries (lines 136-209) -/

/-- The overload `to_trace_struct(const VirtualSpaceSummary&)`. -/
def VirtualSpaceSummary.to_trace_struct (tr : Tracing) (summary : VirtualSpaceSummary) :
    TraceStructVirtualSpace :=
  { start := TraceAddress tr summary.start
    committedEnd := TraceAddress tr summary.committed_end
    committedSize := summary.committed_size
    reservedEnd := TraceAddress tr summary.reserved_end
    reservedSize := summary.reserved_size }

/-- The overload `to_trace_struct(const SpaceSummary&)`. -/
def SpaceSummary.to_trace_struct (tr : Tracing) (summary : SpaceSummary) :
    TraceStructObjectSpace :=
  { start := TraceAddress tr summary.start
    end_ := TraceAddress tr summary.end_
    used := summary.used
    size := summary.size }

structure GCHeapSummaryEventSender where
  _id : Nat
  _when : Nat
  deriving DecidableEq, Repr

/-- The method `visit(const GCHeapSummary*)`. -/
def GCHeapSummaryEventSender.visit (tr : Tracing) (self : GCHeapSummaryEventSender)
    (heap_summary : GCHeapSummary) (s : TraceSink) : TraceSink :=
  let heap_space := heap_summary.heap
  if tr.should_commit .EventGCHeapSummary then
    let s := s.count_conversion .EventGCHeapSummary
    s.commit (.GCHeapSummary self._id (u1 self._when)
      (heap_space.to_trace_struct tr) heap_summary.used)
  else s

/-- The method `visit(const PSHeapSummary*)`. -/
def GCHeapSummaryEventSender.visit_ps (tr : Tracing) (self : GCHeapSummaryEventSender)
    (ps_heap_summary : PSHeapSummary) (s : TraceSink) : TraceSink :=
  let s := self.visit tr ps_heap_summary.toGCHeapSummary s
  if tr.should_commit .EventPSHeapSummary then
    let s := s.count_conversion .EventPSHeapSummary
    let s := s.count_conversion .EventPSHeapSummary
    let s := s.count_conversion .EventPSHeapSummary
    let s := s.count_conversion .EventPSHeapSummary
    let s := s.count_conversion .EventPSHeapSummary
    let s := s.count_conversion .EventPSHeapSummary
    s.commit (.PSHeapSummary self._id (u1 self._when)
      (ps_heap_summary.old.to_trace_struct tr)
      (ps_heap_summary.old_space.to_trace_struct tr)
      (ps_heap_summary.young.to_trace_struct tr)
      (ps_heap_summary.eden.to_trace_struct tr)
      (ps_heap_summary.from_.to_trace_struct tr)
      (ps_heap_summary.to_.to_trace_struct tr))
  else s

/-- Modelled from the spec: `accept` of the heap summary classes
(`gcHeapSummary.hpp`), which hands the summary to the `visit` overload of its
own class. -/
def HeapSummary.accept (tr : Tracing) (visitor : GCHeapSummaryEventSender) :
    HeapSummary → TraceSink → TraceSink
  | .GCHeapSummary h, s => visitor.visit tr h s
  | .PSHeapSummary h, s => visitor.visit_ps tr h s

def GCTracer.send_gc_heap_summary_event (tr : Tracing) (self : GCTracer)
    (when : Nat) (heap_summary : HeapSummary) (s : TraceSink) : TraceSink :=
  let visitor : GCHeapSummaryEventSender := ⟨self._shared_gc_info.id, when⟩
  heap_summary.accept tr visitor s

def GCTracer.send_perm_gen_summary_event (tr : Tracing) (self : GCTracer)
    (when : Nat) (perm_gen_summary : PermGenSummary) (s : TraceSink) : TraceSink :=
  let perm_space := perm_gen_summary.perm_space
  let object_space := perm_gen_summary.object_space
  if tr.should_commit .EventPermGenSummary then
    let s := s.count_conversion .EventPermGenSummary
    let s := s.count_conversion .EventPermGenSummary
    s.commit (.PermGenSummary self._shared_gc_info.id (u1 when)
      (perm_space.to_trace_struct tr) (object_space.to_trace_struct tr))
  else s

/-! ## Phases (lines 211-253) -/

/-- Modelled from the spec: the macros `ShouldNotReachHere()`, `Unimplemented()`
and `assert` of `utilities/debug.hpp`, not part of the sources at hand. Each is
a fatal fault: the call ends where the macro is reached, with the fault named
after it. -/
inductive Fault
  | ShouldNotReachHere
  | Unimplemented
  | assert_failed
  deriving DecidableEq, Repr

structure PhaseSender where
  _gc_id : Nat
  deriving DecidableEq, Repr

/-- The template method `send_phase<T>(PausePhase*)`. -/
def PhaseSender.send_phase (tr : Tracing) (self : PhaseSender) (T : PauseEventType)
    (pause : PhaseData) (s : TraceSink) : TraceSink :=
  if tr.should_commit (.pause T) then
    s.commit (.GCPhasePause T self._gc_id pause.name pause.start pause.end_)
  else s

/-- The method `visit(GCPhase*)`. -/
def PhaseSender.visit_GCPhase (_self : PhaseSender) (_pause : PhaseData)
    (_s : TraceSink) : Except Fault TraceSink :=
  .error .ShouldNotReachHere

/-- The method `visit(ConcurrentPhase*)`. -/
def PhaseSender.visit_ConcurrentPhase (_self : PhaseSender) (_pause : PhaseData)
    (_s : TraceSink) : Except Fault TraceSink :=
  .error .Unimplemented

/-- The method `visit(PausePhase*)`. -/
def PhaseSender.visit_PausePhase (tr : Tracing) (self : PhaseSender) (pause : PhaseData)
    (s : TraceSink) : Except Fault TraceSink :=
  if PHASE_LEVELS ≠ 5 then .error .assert_failed
  else
    match pause.level with
    | 0 => .ok (self.send_phase tr .EventGCPhasePause pause s)
    | 1 => .ok (self.send_phase tr .EventGCPhasePauseLevel1 pause s)
    | 2 => .ok (self.send_phase tr .EventGCPhasePauseLevel2 pause s)
    | 3 => .ok (self.send_phase tr .EventGCPhasePauseLevel3 pause s)
    | _ => .ok s

/-- Modelled from the spec: `accept` of the phase classes (`gcTimer.hpp`),
which hands the node to the `visit` overload of its own kind. -/
def GCPhase.accept (tr : Tracing) (visitor : PhaseSender) :
    GCPhase → TraceSink → Except Fault TraceSink
  | .base d, s => visitor.visit_GCPhase d s
  | .concurrent d, s => visitor.visit_ConcurrentPhase d s
  | .pause d, s => visitor.visit_PausePhase tr d s

/-- What a call that may end fatally leaves behind: the sink as it is when the
call ends, and the fault that ended it, if one did. -/
structure Outcome where
  sink : TraceSink
  fault : Option Fault
  deriving DecidableEq, Repr

/-- The loop `while (iter.has_next()) { iter.next()->accept(&phase_reporter); }`
over the phases the iterator yields, in its order. -/
def send_phase_events_loop (tr : Tracing) (phase_reporter : PhaseSender) :
    List GCPhase → TraceSink → Outcome
  | [], s => ⟨s, none⟩
  | phase :: rest, s =>
    match phase.accept tr phase_reporter s with
    | .error f => ⟨s, some f⟩
    | .ok s' => send_phase_events_loop tr phase_reporter rest s'

/-- The method `GCTracer::send_phase_events`; `time_partitions` is given as
the sequence `TimePartitionPhasesIterator` yields. -/
def GCTracer.send_phase_events (tr : Tracing) (self : GCTracer)
    (time_partitions : List GCPhase) (s : TraceSink) : Outcome :=
  let phase_reporter : PhaseSender := ⟨self._shared_gc_info.id⟩
  send_phase_events_loop tr phase_reporter time_partitions s

/-! ## Vocabulary of the properties -/

/-- The sink `s'` is the sink `s` after `new` was committed and the
conversions `conv` were made, and nothing else. -/
def TraceSink.Extends (s s' : TraceSink) (new : List TraceEvent) (conv : List EventKind) :
    Prop :=
  s'.committed = s.committed ++ new ∧ s'.converted = s.converted ++ conv

/-- Between `s` and `s'` no event of class `k` was committed and no
`to_trace_struct` call was made for one. -/
def TraceSink.Quiet (k : EventKind) (s s' : TraceSink) : Prop :=
  ∃ new conv, s.Extends s' new conv ∧ (∀ e ∈ new, e.kind ≠ k) ∧ k ∉ conv

/-- Every event committed between `s` and `s'` has `gcId` equal to `X`. -/
def TraceSink.Tagged (X : Nat) (s s' : TraceSink) : Prop :=
  ∃ new conv, s.Extends s' new conv ∧ ∀ e ∈ new, e.gcId = X

/-- The pointer fields of a summary are pointers of the platform: they fit in
`address_bits` bits. -/
def VirtualSpaceSummary.native (tr : Tracing) (summary : VirtualSpaceSummary) : Prop :=
  summary.start < 2 ^ tr.address_bits ∧
  summary.committed_end < 2 ^ tr.address_bits ∧
  summary.reserved_end < 2 ^ tr.address_bits

/-- The pointer fields of an object-space summary are pointers of the
platform: they fit in `address_bits` bits. -/
def SpaceSummary.native (tr : Tracing) (summary : SpaceSummary) : Prop :=
  summary.start < 2 ^ tr.address_bits ∧ summary.end_ < 2 ^ tr.address_bits

/-- Whether a phase node is of the pause kind. -/
def GCPhase.is_pause : GCPhase → Bool
  | .pause _ => true
  | _ => false

/-- The event class the specification assigns to a nesting level: levels 0 to
3 have one, every other level has none. -/
def level_event_type (level : Int) : Option PauseEventType :=
  if level = 0 then some .EventGCPhasePause
  else if level = 1 then some .EventGCPhasePauseLevel1
  else if level = 2 then some .EventGCPhasePauseLevel2
  else if level = 3 then some .EventGCPhasePauseLevel3
  else none

/-- The event the specification expects for one phase node: for a pause node
whose level has an event class, and whose class is wanted by the sink, the event
of that class with the cycle id and the node's name, start and end. -/
def expected_phase_event (tr : Tracing) (gc_id : Nat) : GCPhase → Option TraceEvent
  | .pause d =>
    match level_event_type d.level with
    | some T =>
      if tr.should_commit (.pause T) then
        some (.GCPhasePause T gc_id d.name d.start d.end_)
      else none
    | none => none
  | _ => none

/-- The base heap event the specification expects for a heap summary. -/
def expected_heap_event (tr : Tracing) (gc_id when : Nat) (h : GCHeapSummary) : TraceEvent :=
  .GCHeapSummary gc_id (u1 when) (h.heap.to_trace_struct tr) h.used

/-- The specialized per-region event the specification expects for a
multi-generation heap summary. -/
def expected_ps_heap_event (tr : Tracing) (gc_id when : Nat) (h : PSHeapSummary) :
    TraceEvent :=
  .PSHeapSummary gc_id (u1 when)
    (h.old.to_trace_struct tr) (h.old_space.to_trace_struct tr)
    (h.young.to_trace_struct tr) (h.eden.to_trace_struct tr)
    (h.from_.to_trace_struct tr) (h.to_.to_trace_struct tr)

/-- The fault the specification assigns to a phase node: none for a pause
node, the unreachable-state fault for the non-leaf-marker kind, the
unsupported fault for the concurrent kind. -/
def GCPhase.fault : GCPhase → Option Fault
  | .base _ => some .ShouldNotReachHere
  | .concurrent _ => some .Unimplemented
  | .pause _ => none

/-- The fault of the first node of a traversal that has one. -/
def first_fault : List GCPhase → Option Fault
  | [] => none
  | p :: rest =>
    match p.fault with
    | some f => some f
    | none => first_fault rest

/-- The number of committed events of class `k` the sink has seen. -/
def TraceSink.count_kind (s : TraceSink) (k : EventKind) : Nat :=
  s.committed.countP (fun e => decide (e.kind = k))

/-! ## Concrete inputs -/

/-- A trace framework on a 64-bit platform that wants every event. -/
def tracing_all : Tracing := ⟨fun _ => true, 64⟩

/-- A trace framework on a 64-bit platform that wants no event. -/
def tracing_none : Tracing := ⟨fun _ => false, 64⟩

/-- A trace framework that wants the specialized heap event and nothing else. -/
def tracing_ps_only : Tracing := ⟨fun k => decide (k = .EventPSHeapSummary), 64⟩

/-- A trace framework that wants every event but the specialized heap event. -/
def tracing_no_ps : Tracing := ⟨fun k => decide (k ≠ .EventPSHeapSummary), 64⟩

/-- The cycle of the scenario: id 7, "scavenge", cause 1, pauses 12 and 5,
from 100 to 112. -/
def scavenge_info : SharedGCInfo := ⟨7, "scavenge", 1, 12, 5, 100, 112⟩

def scavenge_tracer : GCTracer := ⟨scavenge_info⟩

/-- The failure of the scenario: 3 objects, sizes 64, 16 and 256, thread 42. -/
def failure_3 : CopyFailedInfo := ⟨3, 64, 16, 256, ⟨42⟩⟩

def space_a : VirtualSpaceSummary := ⟨4096, 8192, 4096, 16384, 12288⟩

def space_b : SpaceSummary := ⟨4096, 8192, 1000, 4096⟩

def heap_a : GCHeapSummary := ⟨space_a, 1000⟩

def ps_heap_a : PSHeapSummary := ⟨heap_a, space_a, space_b, space_a, space_b, space_b, space_b⟩

/-- A multi-generation summary whose six regions differ from each other, and
whose fields differ within each region. -/
def ps_heap_b : PSHeapSummary :=
  { heap := ⟨1000, 2400, 1400, 2800, 1800⟩
    used := 127
    old := ⟨1000, 1100, 100, 1900, 900⟩
    old_space := ⟨1001, 1051, 31, 50⟩
    young := ⟨2000, 2300, 300, 2800, 800⟩
    eden := ⟨2001, 2101, 61, 100⟩
    from_ := ⟨2102, 2152, 22, 51⟩
    to_ := ⟨2153, 2203, 13, 52⟩ }

/-- A pause phase at level 0 followed by a node of the non-leaf-marker kind. -/
def pause_then_marker : List GCPhase :=
  [.pause ⟨"p0", 0, 10, 50⟩, .base ⟨"marker", 0, 20, 30⟩]

/-- Two pause phases, a concurrent phase, and one more pause phase. -/
def pauses_then_concurrent : List GCPhase :=
  [.pause ⟨"p0", 0, 10, 50⟩, .pause ⟨"p1", 1, 11, 40⟩, .concurrent ⟨"c", 0, 20, 30⟩,
   .pause ⟨"p2", 0, 60, 70⟩]

/-- Pause phases at levels 0, 1, 2, 3, 4, in that order. -/
def pauses_0_to_4 : List PhaseData :=
  [⟨"p0", 0, 10, 50⟩, ⟨"p1", 1, 11, 40⟩, ⟨"p2", 2, 12, 30⟩, ⟨"p3", 3, 13, 20⟩,
   ⟨"p4", 4, 14, 15⟩]

/-! ## Helper lemmas -/

theorem TraceSink.commit_committed (s : TraceSink) (e : TraceEvent) :
    (s.commit e).committed = s.committed ++ [e] := rfl

theorem TraceSink.commit_converted (s : TraceSink) (e : TraceEvent) :
    (s.commit e).converted = s.converted := rfl

theorem TraceSink.count_conversion_committed (s : TraceSink) (k : EventKind) :
    (s.count_conversion k).committed = s.committed := rfl

theorem TraceSink.count_conversion_converted (s : TraceSink) (k : EventKind) :
    (s.count_conversion k).converted = s.converted ++ [k] := rfl

theorem TraceSink.ext_fields {s s' : TraceSink} (h₁ : s.committed = s'.committed)
    (h₂ : s.converted = s'.converted) : s = s' := by
  cases s; cases s'; simp_all

theorem u2_of_lt {x : Nat} (h : x < 2 ^ 16) : u2 x = x := Nat.mod_eq_of_lt h

theorem u1_of_lt {x : Nat} (h : x < 2 ^ 8) : u1 x = x := Nat.mod_eq_of_lt h

theorem TraceAddress_of_lt (tr : Tracing) {p : Nat} (h : p < 2 ^ tr.address_bits) :
    TraceAddress tr p = p := Nat.mod_eq_of_lt h

theorem ne_of_gate {tr : Tracing} {k k0 : EventKind} (hoff : tr.should_commit k = false)
    (hon : tr.should_commit k0 = true) : k0 ≠ k := by
  rintro rfl
  rw [hoff] at hon
  cases hon

theorem quiet_refl (k : EventKind) (s : TraceSink) : s.Quiet k s :=
  ⟨[], [], ⟨by simp, by simp⟩, by simp, by simp⟩

theorem quiet_commit {k : EventKind} {s s' : TraceSink} (h : s.Quiet k s')
    {e : TraceEvent} (he : e.kind ≠ k) : s.Quiet k (s'.commit e) := by
  obtain ⟨new, conv, ⟨h1, h2⟩, h3, h4⟩ := h
  refine ⟨new ++ [e], conv, ⟨?_, ?_⟩, ?_, h4⟩
  · simp [TraceSink.commit, h1]
  · simp [TraceSink.commit, h2]
  · intro x hx
    rcases List.mem_append.mp hx with hx | hx
    · exact h3 x hx
    · rw [List.mem_singleton.mp hx]
      exact he

theorem quiet_count_conversion {k : EventKind} {s s' : TraceSink} (h : s.Quiet k s')
    {k0 : EventKind} (hk : k0 ≠ k) : s.Quiet k (s'.count_conversion k0) := by
  obtain ⟨new, conv, ⟨h1, h2⟩, h3, h4⟩ := h
  refine ⟨new, conv ++ [k0], ⟨?_, ?_⟩, h3, ?_⟩
  · simp [TraceSink.count_conversion, h1]
  · simp [TraceSink.count_conversion, h2]
  · intro hx
    rcases List.mem_append.mp hx with hx | hx
    · exact h4 hx
    · exact hk (List.mem_singleton.mp hx).symm

theorem tagged_refl (X : Nat) (s : TraceSink) : s.Tagged X s :=
  ⟨[], [], ⟨by simp, by simp⟩, by simp⟩

theorem tagged_commit {X : Nat} {s s' : TraceSink} (h : s.Tagged X s')
    {e : TraceEvent} (he : e.gcId = X) : s.Tagged X (s'.commit e) := by
  obtain ⟨new, conv, ⟨h1, h2⟩, h3⟩ := h
  refine ⟨new ++ [e], conv, ⟨?_, ?_⟩, ?_⟩
  · simp [TraceSink.commit, h1]
  · simp [TraceSink.commit, h2]
  · intro x hx
    rcases List.mem_append.mp hx with hx | hx
    · exact h3 x hx
    · rw [List.mem_singleton.mp hx]
      exact he

theorem tagged_count_conversion {X : Nat} {s s' : TraceSink} (h : s.Tagged X s')
    (k0 : EventKind) : s.Tagged X (s'.count_conversion k0) := by
  obtain ⟨new, conv, ⟨h1, h2⟩, h3⟩ := h
  exact ⟨new, conv ++ [k0], ⟨by simp [TraceSink.count_conversion, h1],
    by simp [TraceSink.count_conversion, h2]⟩, h3⟩

theorem expected_phase_event_gcId {tr : Tracing} {gc_id : Nat} {p : GCPhase} {e : TraceEvent}
    (h : expected_phase_event tr gc_id p = some e) : e.gcId = gc_id := by
  cases p with
  | base d => simp [expected_phase_event] at h
  | concurrent d => simp [expected_phase_event] at h
  | pause d =>
    simp only [expected_phase_event] at h
    split at h
    · split at h
      · cases h
        rfl
      · cases h
    · cases h

theorem expected_phase_event_wanted {tr : Tracing} {gc_id : Nat} {p : GCPhase} {e : TraceEvent}
    (h : expected_phase_event tr gc_id p = some e) : tr.should_commit e.kind = true := by
  cases p with
  | base d => simp [expected_phase_event] at h
  | concurrent d => simp [expected_phase_event] at h
  | pause d =>
    simp only [expected_phase_event] at h
    split at h
    · split at h
      · next hk =>
        cases h
        exact hk
      · cases h
    · cases h

theorem to_trace_struct_virtual_space_eq (tr : Tracing) (summary : VirtualSpaceSummary) :
    summary.to_trace_struct tr =
      ⟨summary.start % 2 ^ tr.address_bits, summary.committed_end % 2 ^ tr.address_bits,
        summary.committed_size, summary.reserved_end % 2 ^ tr.address_bits,
        summary.reserved_size⟩ := rfl

theorem to_trace_struct_object_space_eq (tr : Tracing) (summary : SpaceSummary) :
    summary.to_trace_struct tr =
      ⟨summary.start % 2 ^ tr.address_bits, summary.end_ % 2 ^ tr.address_bits,
        summary.used, summary.size⟩ := rfl

/-! ## Cycle summary, failure record, address ranges -/

/-- C6: with its gate open, and the cause a `GCCause` enumerator (so that the
`(u2)` cast keeps it), `send_garbage_collection_event` commits exactly one
record, the cycle summary whose gcId, name, cause, sumOfPauses, longestPause,
starttime and endtime are the fields of the cycle info, and makes no
conversion. -/
theorem send_garbage_collection_event_commits_cycle_summary
    (tr : Tracing) (self : GCTracer) (s : TraceSink)
    (hgate : tr.should_commit .EventGCGarbageCollection = true)
    (hcause : self._shared_gc_info.cause < 2 ^ 16) :
    s.Extends (self.send_garbage_collection_event tr s)
      [.GCGarbageCollection self._shared_gc_info.id self._shared_gc_info.name
        self._shared_gc_info.cause self._shared_gc_info.sum_of_pauses
        self._shared_gc_info.longest_pause self._shared_gc_info.start_timestamp
        self._shared_gc_info.end_timestamp] [] := by
  simp [GCTracer.send_garbage_collection_event, hgate, TraceSink.Extends,
    TraceSink.commit, u2_of_lt hcause]

/-- C6, the scenario: the cycle info {7, "scavenge", 1, 12, 5, 100, 112} with
all gates open yields exactly the record {7, "scavenge", 1, 12, 5, 100, 112}. -/
theorem send_garbage_collection_event_scavenge :
    (scavenge_tracer.send_garbage_collection_event tracing_all TraceSink.empty).committed
      = [.GCGarbageCollection 7 "scavenge" 1 12 5 100 112] := by
  have h := send_garbage_collection_event_commits_cycle_summary tracing_all
    scavenge_tracer TraceSink.empty rfl (by decide)
  simpa [TraceSink.empty, scavenge_tracer, scavenge_info] using h.1

/-- C7: `to_trace_struct` of a `CopyFailedInfo` returns the record whose
objectCount, firstSize, smallestSize, totalSize and thread are the failed
count, first size, smallest size, total size and the thread's id of the
input; and that record is the data of the event `send_promotion_failed_event`
commits when its gate is open. -/
theorem to_trace_struct_copy_failed_fields (cf_info : CopyFailedInfo) :
    cf_info.to_trace_struct.objectCount = cf_info.failed_count ∧
    cf_info.to_trace_struct.firstSize = cf_info.first_size ∧
    cf_info.to_trace_struct.smallestSize = cf_info.smallest_size ∧
    cf_info.to_trace_struct.totalSize = cf_info.total_size ∧
    cf_info.to_trace_struct.thread = cf_info.thread.thread_id ∧
    ∀ (tr : Tracing) (t : YoungGCTracer) (s : TraceSink),
      tr.should_commit .EventPromotionFailed = true →
      (t.send_promotion_failed_event tr ⟨cf_info⟩ s).committed
        = s.committed ++ [.PromotionFailed t._shared_gc_info.id
            ⟨cf_info.failed_count, cf_info.first_size, cf_info.smallest_size,
              cf_info.total_size, cf_info.thread.thread_id⟩] := by
  refine ⟨rfl, rfl, rfl, rfl, rfl, ?_⟩
  intro tr t s hgate
  simp [YoungGCTracer.send_promotion_failed_event, hgate, TraceSink.commit,
    TraceSink.count_conversion, CopyFailedInfo.to_trace_struct]

/-- C7, the scenario: {3, 64, 16, 256, thread 42} converts to the record with
the same five values. -/
theorem to_trace_struct_copy_failed_scenario :
    failure_3.to_trace_struct = ⟨3, 64, 16, 256, 42⟩ := by
  obtain ⟨h1, h2, h3, h4, h5, -⟩ := to_trace_struct_copy_failed_fields failure_3
  cases hrec : failure_3.to_trace_struct
  simp_all [failure_3]

/-- C8: for a summary whose addresses are pointers of the platform and whose
committed size is at most its reserved size, the converted record has
committedSize at most reservedSize, and its five fields equal the input's. -/
theorem to_trace_struct_virtual_space_preserves
    (tr : Tracing) (summary : VirtualSpaceSummary)
    (hnative : summary.native tr)
    (hle : summary.committed_size ≤ summary.reserved_size) :
    (summary.to_trace_struct tr).committedSize ≤ (summary.to_trace_struct tr).reservedSize ∧
    (summary.to_trace_struct tr).start = summary.start ∧
    (summary.to_trace_struct tr).committedEnd = summary.committed_end ∧
    (summary.to_trace_struct tr).committedSize = summary.committed_size ∧
    (summary.to_trace_struct tr).reservedEnd = summary.reserved_end ∧
    (summary.to_trace_struct tr).reservedSize = summary.reserved_size := by
  obtain ⟨h1, h2, h3⟩ := hnative
  refine ⟨hle, ?_, ?_, rfl, ?_, rfl⟩
  · exact TraceAddress_of_lt tr h1
  · exact TraceAddress_of_lt tr h2
  · exact TraceAddress_of_lt tr h3

/-- C8 at a concrete address range on a 64-bit platform. -/
theorem to_trace_struct_virtual_space_example :
    space_a.native tracing_all ∧ space_a.committed_size ≤ space_a.reserved_size ∧
    (space_a.to_trace_struct tracing_all).committedSize
      ≤ (space_a.to_trace_struct tracing_all).reservedSize ∧
    space_a.to_trace_struct tracing_all = ⟨4096, 8192, 4096, 16384, 12288⟩ := by
  have hn : space_a.native tracing_all := by
    simp [VirtualSpaceSummary.native, space_a, tracing_all]
  have hl : space_a.committed_size ≤ space_a.reserved_size := by decide
  have h := to_trace_struct_virtual_space_preserves tracing_all space_a hn hl
  refine ⟨hn, hl, h.1, ?_⟩
  simp [VirtualSpaceSummary.to_trace_struct, TraceAddress, space_a, tracing_all]

/-! ## The phase loop -/

theorem visit_PausePhase_eq (tr : Tracing) (r : PhaseSender) (d : PhaseData) (s : TraceSink) :
    r.visit_PausePhase tr d s =
      .ok (match expected_phase_event tr r._gc_id (.pause d) with
        | some e => s.commit e
        | none => s) := by
  unfold PhaseSender.visit_PausePhase
  simp only [PHASE_LEVELS, ne_eq, not_true_eq_false, if_false]
  split <;> simp_all [expected_phase_event, level_event_type, PhaseSender.send_phase] <;>
    split <;> simp_all

/-- The loop commits, in order, the expected event of every pause node that
comes before the first node of another kind, makes no conversion, and ends
with the fault of that node, if there is one. -/
theorem send_phase_events_loop_spec (tr : Tracing) (r : PhaseSender) :
    ∀ (phases : List GCPhase) (s : TraceSink),
      send_phase_events_loop tr r phases s =
        ⟨⟨s.committed ++
            (phases.takeWhile GCPhase.is_pause).filterMap (expected_phase_event tr r._gc_id),
          s.converted⟩, first_fault phases⟩
  | [], s => by simp [send_phase_events_loop, first_fault]
  | p :: rest, s => by
    cases p with
    | base d =>
      simp [send_phase_events_loop, GCPhase.accept, PhaseSender.visit_GCPhase, first_fault,
        GCPhase.fault, GCPhase.is_pause]
    | concurrent d =>
      simp [send_phase_events_loop, GCPhase.accept, PhaseSender.visit_ConcurrentPhase,
        first_fault, GCPhase.fault, GCPhase.is_pause]
    | pause d =>
      simp only [send_phase_events_loop, GCPhase.accept, visit_PausePhase_eq]
      rw [send_phase_events_loop_spec tr r rest]
      cases h : expected_phase_event tr r._gc_id (.pause d) <;>
        simp [h, first_fault, GCPhase.fault, GCPhase.is_pause, TraceSink.commit]

theorem takeWhile_is_pause_of_all {phases : List GCPhase}
    (h : ∀ p ∈ phases, p.is_pause = true) : phases.takeWhile GCPhase.is_pause = phases := by
  induction phases with
  | nil => rfl
  | cons p rest ih =>
    have hp := h p (List.mem_cons_self _ _)
    simp [List.takeWhile_cons, hp, ih (fun q hq => h q (List.mem_cons_of_mem _ hq))]

theorem takeWhile_is_pause_append {pre : List GCPhase} {bad : GCPhase} (post : List GCPhase)
    (hpre : ∀ p ∈ pre, p.is_pause = true) (hbad : bad.is_pause = false) :
    (pre ++ bad :: post).takeWhile GCPhase.is_pause = pre := by
  induction pre with
  | nil => simp [List.takeWhile_cons, hbad]
  | cons p rest ih =>
    have hp := hpre p (List.mem_cons_self _ _)
    simp [List.takeWhile_cons, hp, ih (fun q hq => hpre q (List.mem_cons_of_mem _ hq))]

theorem first_fault_of_all_pause {phases : List GCPhase}
    (h : ∀ p ∈ phases, p.is_pause = true) : first_fault phases = none := by
  induction phases with
  | nil => rfl
  | cons p rest ih =>
    have hp := h p (List.mem_cons_self _ _)
    cases p with
    | base d => simp [GCPhase.is_pause] at hp
    | concurrent d => simp [GCPhase.is_pause] at hp
    | pause d =>
      simp [first_fault, GCPhase.fault, ih (fun q hq => h q (List.mem_cons_of_mem _ hq))]

theorem first_fault_append {pre : List GCPhase} {bad : GCPhase} (post : List GCPhase)
    (hpre : ∀ p ∈ pre, p.is_pause = true) (hbad : bad.is_pause = false) :
    first_fault (pre ++ bad :: post) = bad.fault := by
  induction pre with
  | nil =>
    cases bad with
    | base d => simp [first_fault, GCPhase.fault]
    | concurrent d => simp [first_fault, GCPhase.fault]
    | pause d => simp [GCPhase.is_pause] at hbad
  | cons p rest ih =>
    have hp := hpre p (List.mem_cons_self _ _)
    cases p with
    | base d => simp [GCPhase.is_pause] at hp
    | concurrent d => simp [GCPhase.is_pause] at hp
    | pause d =>
      simp [first_fault, GCPhase.fault, ih (fun q hq => hpre q (List.mem_cons_of_mem _ hq))]

theorem first_fault_isSome_iff (phases : List GCPhase) :
    (first_fault phases).isSome = true ↔ ∃ p ∈ phases, p.is_pause = false := by
  induction phases with
  | nil => simp [first_fault]
  | cons p rest ih =>
    cases p with
    | base d => simp [first_fault, GCPhase.fault, GCPhase.is_pause]
    | concurrent d => simp [first_fault, GCPhase.fault, GCPhase.is_pause]
    | pause d => simp [first_fault, GCPhase.fault, GCPhase.is_pause, ih]

/-! ## Phase events -/

/-- C4: with the four pause gates open, `send_phase_events` on a traversal of
pause nodes commits, in the order of the nodes, exactly one event for each
node whose level has an event class, of that class and with the cycle id and
the node's name, start and end, commits nothing for the other nodes, and does
not fault; the classes are those of levels 0, 1, 2 and 3, and a level of 4 or
more has none. -/
theorem send_phase_events_one_event_per_level
    (tr : Tracing) (self : GCTracer) (pauses : List PhaseData) (s : TraceSink)
    (hopen : ∀ T, tr.should_commit (.pause T) = true) :
    self.send_phase_events tr (pauses.map GCPhase.pause) s =
      ⟨⟨s.committed ++ pauses.filterMap (fun d =>
          (level_event_type d.level).map (fun T =>
            TraceEvent.GCPhasePause T self._shared_gc_info.id d.name d.start d.end_)),
        s.converted⟩, none⟩ ∧
    level_event_type 0 = some .EventGCPhasePause ∧
    level_event_type 1 = some .EventGCPhasePauseLevel1 ∧
    level_event_type 2 = some .EventGCPhasePauseLevel2 ∧
    level_event_type 3 = some .EventGCPhasePauseLevel3 ∧
    ∀ level : Int, 4 ≤ level → level_event_type level = none := by
  refine ⟨?_, rfl, rfl, rfl, rfl, ?_⟩
  · have hall : ∀ p ∈ pauses.map GCPhase.pause, p.is_pause = true := by
      intro p hp
      obtain ⟨d, -, rfl⟩ := List.mem_map.mp hp
      rfl
    simp only [GCTracer.send_phase_events, send_phase_events_loop_spec,
      takeWhile_is_pause_of_all hall, first_fault_of_all_pause hall, List.filterMap_map]
    congr 3
    congr 1
    funext d
    simp only [Function.comp, expected_phase_event]
    cases level_event_type d.level <;> simp [hopen]
  · intro level h
    unfold level_event_type
    rw [if_neg (by omega), if_neg (by omega), if_neg (by omega), if_neg (by omega)]

/-- C4, the scenario: pause nodes at levels 0, 1, 2, 3, 4 in that order give
exactly four events, of the classes of levels 0, 1, 2, 3 in that order. -/
theorem send_phase_events_levels_0_to_4 :
    scavenge_tracer.send_phase_events tracing_all (pauses_0_to_4.map GCPhase.pause)
        TraceSink.empty =
      ⟨⟨[.GCPhasePause .EventGCPhasePause 7 "p0" 10 50,
         .GCPhasePause .EventGCPhasePauseLevel1 7 "p1" 11 40,
         .GCPhasePause .EventGCPhasePauseLevel2 7 "p2" 12 30,
         .GCPhasePause .EventGCPhasePauseLevel3 7 "p3" 13 20], []⟩, none⟩ :=
  (send_phase_events_one_event_per_level tracing_all scavenge_tracer pauses_0_to_4
    TraceSink.empty (fun _ => rfl)).1.trans (by
      simp [pauses_0_to_4, level_event_type, TraceSink.empty, scavenge_tracer, scavenge_info])

/-- C5: `send_phase_events` ends in a fault exactly when the traversal has a
node that is not a pause phase; when the first such node is of the
non-leaf-marker kind the fault is `ShouldNotReachHere`, when it is a
concurrent phase the fault is `Unimplemented`; a traversal of pause phases
only, of any levels, does not fault. -/
theorem send_phase_events_faults_iff_non_pause
    (tr : Tracing) (self : GCTracer) (phases : List GCPhase) (s : TraceSink) :
    ((self.send_phase_events tr phases s).fault.isSome = true ↔
      ∃ p ∈ phases, p.is_pause = false) ∧
    (∀ (pre post : List GCPhase) (d : PhaseData), (∀ p ∈ pre, p.is_pause = true) →
      (self.send_phase_events tr (pre ++ GCPhase.base d :: post) s).fault
        = some Fault.ShouldNotReachHere) ∧
    (∀ (pre post : List GCPhase) (d : PhaseData), (∀ p ∈ pre, p.is_pause = true) →
      (self.send_phase_events tr (pre ++ GCPhase.concurrent d :: post) s).fault
        = some Fault.Unimplemented) ∧
    ((∀ p ∈ phases, p.is_pause = true) →
      (self.send_phase_events tr phases s).fault = none) := by
  refine ⟨?_, ?_, ?_, ?_⟩
  · simp only [GCTracer.send_phase_events, send_phase_events_loop_spec]
    exact first_fault_isSome_iff phases
  · intro pre post d hpre
    simp only [GCTracer.send_phase_events, send_phase_events_loop_spec]
    exact first_fault_append post hpre rfl
  · intro pre post d hpre
    simp only [GCTracer.send_phase_events, send_phase_events_loop_spec]
    exact first_fault_append post hpre rfl
  · intro hall
    simp only [GCTracer.send_phase_events, send_phase_events_loop_spec]
    exact first_fault_of_all_pause hall

/-- C10 as stated fails: with all gates open, a pause phase of level 0
followed by a node of the non-leaf-marker kind ends in `ShouldNotReachHere`,
and the call that hit the fault has committed the event of the pause phase. -/
theorem send_phase_events_commits_before_fault :
    (∃ p ∈ pause_then_marker, p.is_pause = false) ∧
    (scavenge_tracer.send_phase_events tracing_all pause_then_marker TraceSink.empty).fault
      = some Fault.ShouldNotReachHere ∧
    (scavenge_tracer.send_phase_events tracing_all pause_then_marker
        TraceSink.empty).sink.committed
      = [.GCPhasePause .EventGCPhasePause 7 "p0" 10 50] ∧
    (scavenge_tracer.send_phase_events tracing_all pause_then_marker
        TraceSink.empty).sink.committed ≠ [] := by
  refine ⟨⟨.base ⟨"marker", 0, 20, 30⟩, by simp [pause_then_marker], rfl⟩, ?_, ?_, ?_⟩ <;>
    simp [GCTracer.send_phase_events, send_phase_events_loop_spec, pause_then_marker,
      first_fault, GCPhase.fault, GCPhase.is_pause, expected_phase_event, level_event_type,
      tracing_all, TraceSink.empty, scavenge_tracer, scavenge_info]

/-- C10, amended: when the traversal reaches a node that is not a pause phase
after pause phases only, the call ends with the fault of that node, and the
sink is as the pause phases before it left it: it holds their expected events,
in order, and no event for the faulting node or for any node after it. -/
theorem send_phase_events_fault_stops_emission
    (tr : Tracing) (self : GCTracer) (pre : List GCPhase) (bad : GCPhase)
    (post : List GCPhase) (s : TraceSink)
    (hpre : ∀ p ∈ pre, p.is_pause = true) (hbad : bad.is_pause = false) :
    (self.send_phase_events tr (pre ++ bad :: post) s).fault = bad.fault ∧
    bad.fault ≠ none ∧
    (self.send_phase_events tr (pre ++ bad :: post) s).sink
      = (self.send_phase_events tr pre s).sink ∧
    (self.send_phase_events tr (pre ++ bad :: post) s).sink.committed
      = s.committed ++ pre.filterMap (expected_phase_event tr self._shared_gc_info.id) ∧
    (self.send_phase_events tr (pre ++ bad :: post) s).sink.converted = s.converted := by
  simp only [GCTracer.send_phase_events, send_phase_events_loop_spec,
    takeWhile_is_pause_append post hpre hbad, takeWhile_is_pause_of_all hpre,
    first_fault_append post hpre hbad]
  refine ⟨trivial, ?_, trivial, trivial, trivial⟩
  cases bad with
  | base d => simp [GCPhase.fault]
  | concurrent d => simp [GCPhase.fault]
  | pause d => simp [GCPhase.is_pause] at hbad

/-- C10, amended, at a concrete traversal: two pause phases, a concurrent
phase, one more pause phase; the two events of the first two phases are
committed, the call ends in `Unimplemented`, the last phase gives no event. -/
theorem send_phase_events_fault_stops_emission_example :
    (scavenge_tracer.send_phase_events tracing_all pauses_then_concurrent
        TraceSink.empty).fault = some Fault.Unimplemented ∧
    (scavenge_tracer.send_phase_events tracing_all pauses_then_concurrent
        TraceSink.empty).sink.committed
      = [.GCPhasePause .EventGCPhasePause 7 "p0" 10 50,
         .GCPhasePause .EventGCPhasePauseLevel1 7 "p1" 11 40] := by
  have h := send_phase_events_fault_stops_emission tracing_all scavenge_tracer
    [.pause ⟨"p0", 0, 10, 50⟩, .pause ⟨"p1", 1, 11, 40⟩] (.concurrent ⟨"c", 0, 20, 30⟩)
    [.pause ⟨"p2", 0, 60, 70⟩] TraceSink.empty
    (by intro p hp; simp at hp; rcases hp with rfl | rfl <;> rfl) rfl
  refine ⟨h.1, h.2.2.2.1.trans ?_⟩
  simp [expected_phase_event, level_event_type, tracing_all, TraceSink.empty,
    scavenge_tracer, scavenge_info]

/-! ## Heap summaries -/

theorem visit_eq (tr : Tracing) (v : GCHeapSummaryEventSender) (h : GCHeapSummary)
    (s : TraceSink) :
    v.visit tr h s =
      ⟨s.committed ++
          (if tr.should_commit .EventGCHeapSummary then
            [expected_heap_event tr v._id v._when h] else []),
        s.converted ++
          (if tr.should_commit .EventGCHeapSummary then [.EventGCHeapSummary] else [])⟩ := by
  unfold GCHeapSummaryEventSender.visit
  by_cases hb : tr.should_commit .EventGCHeapSummary = true
  · simp [hb, TraceSink.commit, TraceSink.count_conversion, expected_heap_event]
  · simp [hb]

theorem visit_ps_eq (tr : Tracing) (v : GCHeapSummaryEventSender) (h : PSHeapSummary)
    (s : TraceSink) :
    v.visit_ps tr h s =
      ⟨s.committed ++
          (if tr.should_commit .EventGCHeapSummary then
            [expected_heap_event tr v._id v._when h.toGCHeapSummary] else []) ++
          (if tr.should_commit .EventPSHeapSummary then
            [expected_ps_heap_event tr v._id v._when h] else []),
        s.converted ++
          (if tr.should_commit .EventGCHeapSummary then [.EventGCHeapSummary] else []) ++
          (if tr.should_commit .EventPSHeapSummary then
            List.replicate 6 .EventPSHeapSummary else [])⟩ := by
  unfold GCHeapSummaryEventSender.visit_ps
  rw [visit_eq]
  by_cases hp : tr.should_commit .EventPSHeapSummary = true
  · simp [hp, TraceSink.commit, TraceSink.count_conversion, expected_ps_heap_event,
      List.replicate]
  · simp [hp]

/-- C3: with the base gate open, `send_gc_heap_summary_event` on a uniform
summary commits exactly one event, the base heap event, whatever the
specialized gate answers; on a multi-generation summary, with the specialized
gate open too, it commits exactly two events, the base heap event first and
the specialized per-region event second. -/
theorem send_gc_heap_summary_event_counts
    (tr : Tracing) (self : GCTracer) (when : Nat) (s : TraceSink)
    (hbase : tr.should_commit .EventGCHeapSummary = true) :
    (∀ h : GCHeapSummary,
      (self.send_gc_heap_summary_event tr when (.GCHeapSummary h) s).committed
        = s.committed ++ [expected_heap_event tr self._shared_gc_info.id when h]) ∧
    (tr.should_commit .EventPSHeapSummary = true → ∀ h : PSHeapSummary,
      (self.send_gc_heap_summary_event tr when (.PSHeapSummary h) s).committed
        = s.committed ++ [expected_heap_event tr self._shared_gc_info.id when h.toGCHeapSummary,
            expected_ps_heap_event tr self._shared_gc_info.id when h]) := by
  refine ⟨?_, ?_⟩
  · intro h
    simp [GCTracer.send_gc_heap_summary_event, HeapSummary.accept, visit_eq, hbase]
  · intro hps h
    simp [GCTracer.send_gc_heap_summary_event, HeapSummary.accept, visit_ps_eq, hbase, hps]

/-- C3 at concrete summaries: a uniform summary gives one event with the
specialized gate open and with it closed; a multi-generation summary with both
gates open gives two, the base event first. -/
theorem send_gc_heap_summary_event_counts_example :
    (scavenge_tracer.send_gc_heap_summary_event tracing_all 1 (.GCHeapSummary heap_a)
        TraceSink.empty).committed
      = [expected_heap_event tracing_all 7 1 heap_a] ∧
    (scavenge_tracer.send_gc_heap_summary_event tracing_no_ps 1 (.GCHeapSummary heap_a)
        TraceSink.empty).committed
      = [expected_heap_event tracing_no_ps 7 1 heap_a] ∧
    (scavenge_tracer.send_gc_heap_summary_event tracing_all 1 (.PSHeapSummary ps_heap_a)
        TraceSink.empty).committed
      = [.GCHeapSummary 7 1 ⟨4096, 8192, 4096, 16384, 12288⟩ 1000,
         .PSHeapSummary 7 1 ⟨4096, 8192, 4096, 16384, 12288⟩ ⟨4096, 8192, 1000, 4096⟩
           ⟨4096, 8192, 4096, 16384, 12288⟩ ⟨4096, 8192, 1000, 4096⟩
           ⟨4096, 8192, 1000, 4096⟩ ⟨4096, 8192, 1000, 4096⟩] := by
  have hall := send_gc_heap_summary_event_counts tracing_all scavenge_tracer 1
    TraceSink.empty rfl
  have hno := send_gc_heap_summary_event_counts tracing_no_ps scavenge_tracer 1
    TraceSink.empty rfl
  refine ⟨?_, ?_, ?_⟩
  · simpa [TraceSink.empty, scavenge_tracer, scavenge_info] using hall.1 heap_a
  · simpa [TraceSink.empty, scavenge_tracer, scavenge_info] using hno.1 heap_a
  · refine (hall.2 rfl ps_heap_a).trans ?_
    simp [TraceSink.empty, scavenge_tracer, scavenge_info, expected_heap_event,
      expected_ps_heap_event, ps_heap_a, heap_a, space_a, space_b, u1, TraceAddress,
      VirtualSpaceSummary.to_trace_struct, SpaceSummary.to_trace_struct, tracing_all]

/-- C9: on a multi-generation summary, `send_gc_heap_summary_event` commits
the base event when and only when the base gate is open and, after it, the
specialized event when and only when the specialized gate is open. With the
specialized gate open and the base gate closed it commits exactly one event,
the specialized one, and makes six conversions, all for it. That event has,
field by field: the cycle id; the when-marker cast to a byte; for old and
young the start, committed end and reserved end cast to `TraceAddress` and the
committed and reserved size; for old-object, eden, from and to the start and
end cast to `TraceAddress` and the used and total size. When the marker fits a
byte and the addresses are pointers of the platform, these are the marker and
the fields of the six summaries themselves. The number of specialized events
committed is decided by the specialized gate alone, the number of base events
by the base gate alone. -/
theorem send_gc_heap_summary_event_gates_independent
    (tr : Tracing) (self : GCTracer) (when : Nat) (h : PSHeapSummary) (s : TraceSink) :
    (self.send_gc_heap_summary_event tr when (.PSHeapSummary h) s).committed
      = s.committed ++
          (if tr.should_commit .EventGCHeapSummary then
            [TraceEvent.GCHeapSummary self._shared_gc_info.id (when % 2 ^ 8)
              ⟨h.heap.start % 2 ^ tr.address_bits, h.heap.committed_end % 2 ^ tr.address_bits,
                h.heap.committed_size, h.heap.reserved_end % 2 ^ tr.address_bits,
                h.heap.reserved_size⟩
              h.used] else []) ++
          (if tr.should_commit .EventPSHeapSummary then
            [TraceEvent.PSHeapSummary self._shared_gc_info.id (when % 2 ^ 8)
              ⟨h.old.start % 2 ^ tr.address_bits, h.old.committed_end % 2 ^ tr.address_bits,
                h.old.committed_size, h.old.reserved_end % 2 ^ tr.address_bits,
                h.old.reserved_size⟩
              ⟨h.old_space.start % 2 ^ tr.address_bits, h.old_space.end_ % 2 ^ tr.address_bits,
                h.old_space.used, h.old_space.size⟩
              ⟨h.young.start % 2 ^ tr.address_bits, h.young.committed_end % 2 ^ tr.address_bits,
                h.young.committed_size, h.young.reserved_end % 2 ^ tr.address_bits,
                h.young.reserved_size⟩
              ⟨h.eden.start % 2 ^ tr.address_bits, h.eden.end_ % 2 ^ tr.address_bits,
                h.eden.used, h.eden.size⟩
              ⟨h.from_.start % 2 ^ tr.address_bits, h.from_.end_ % 2 ^ tr.address_bits,
                h.from_.used, h.from_.size⟩
              ⟨h.to_.start % 2 ^ tr.address_bits, h.to_.end_ % 2 ^ tr.address_bits,
                h.to_.used, h.to_.size⟩] else []) ∧
    (tr.should_commit .EventPSHeapSummary = true →
      tr.should_commit .EventGCHeapSummary = false →
      (self.send_gc_heap_summary_event tr when (.PSHeapSummary h) s).committed
        = s.committed ++
            [TraceEvent.PSHeapSummary self._shared_gc_info.id (when % 2 ^ 8)
              ⟨h.old.start % 2 ^ tr.address_bits, h.old.committed_end % 2 ^ tr.address_bits,
                h.old.committed_size, h.old.reserved_end % 2 ^ tr.address_bits,
                h.old.reserved_size⟩
              ⟨h.old_space.start % 2 ^ tr.address_bits, h.old_space.end_ % 2 ^ tr.address_bits,
                h.old_space.used, h.old_space.size⟩
              ⟨h.young.start % 2 ^ tr.address_bits, h.young.committed_end % 2 ^ tr.address_bits,
                h.young.committed_size, h.young.reserved_end % 2 ^ tr.address_bits,
                h.young.reserved_size⟩
              ⟨h.eden.start % 2 ^ tr.address_bits, h.eden.end_ % 2 ^ tr.address_bits,
                h.eden.used, h.eden.size⟩
              ⟨h.from_.start % 2 ^ tr.address_bits, h.from_.end_ % 2 ^ tr.address_bits,
                h.from_.used, h.from_.size⟩
              ⟨h.to_.start % 2 ^ tr.address_bits, h.to_.end_ % 2 ^ tr.address_bits,
                h.to_.used, h.to_.size⟩] ∧
      (self.send_gc_heap_summary_event tr when (.PSHeapSummary h) s).converted
        = s.converted ++ List.replicate 6 EventKind.EventPSHeapSummary) ∧
    (tr.should_commit .EventPSHeapSummary = true →
      tr.should_commit .EventGCHeapSummary = false →
      when < 2 ^ 8 → h.old.native tr → h.old_space.native tr → h.young.native tr →
      h.eden.native tr → h.from_.native tr → h.to_.native tr →
      (self.send_gc_heap_summary_event tr when (.PSHeapSummary h) s).committed
        = s.committed ++
            [TraceEvent.PSHeapSummary self._shared_gc_info.id when
              ⟨h.old.start, h.old.committed_end, h.old.committed_size, h.old.reserved_end,
                h.old.reserved_size⟩
              ⟨h.old_space.start, h.old_space.end_, h.old_space.used, h.old_space.size⟩
              ⟨h.young.start, h.young.committed_end, h.young.committed_size,
                h.young.reserved_end, h.young.reserved_size⟩
              ⟨h.eden.start, h.eden.end_, h.eden.used, h.eden.size⟩
              ⟨h.from_.start, h.from_.end_, h.from_.used, h.from_.size⟩
              ⟨h.to_.start, h.to_.end_, h.to_.used, h.to_.size⟩]) ∧
    (when < 2 ^ 8 → u1 when = when) ∧
    (∀ tr2 : Tracing,
      tr2.should_commit .EventPSHeapSummary = tr.should_commit .EventPSHeapSummary →
      (self.send_gc_heap_summary_event tr2 when (.PSHeapSummary h) s).count_kind
          .EventPSHeapSummary
        = (self.send_gc_heap_summary_event tr when (.PSHeapSummary h) s).count_kind
          .EventPSHeapSummary) ∧
    (∀ tr2 : Tracing,
      tr2.should_commit .EventGCHeapSummary = tr.should_commit .EventGCHeapSummary →
      (self.send_gc_heap_summary_event tr2 when (.PSHeapSummary h) s).count_kind
          .EventGCHeapSummary
        = (self.send_gc_heap_summary_event tr when (.PSHeapSummary h) s).count_kind
          .EventGCHeapSummary) := by
  have key : ∀ t : Tracing,
      (self.send_gc_heap_summary_event t when (.PSHeapSummary h) s).committed
        = s.committed ++
            (if t.should_commit .EventGCHeapSummary then
              [expected_heap_event t self._shared_gc_info.id when h.toGCHeapSummary] else []) ++
            (if t.should_commit .EventPSHeapSummary then
              [expected_ps_heap_event t self._shared_gc_info.id when h] else []) := by
    intro t
    simp [GCTracer.send_gc_heap_summary_event, HeapSummary.accept, visit_ps_eq]
  have cnt_ps : ∀ t : Tracing,
      (self.send_gc_heap_summary_event t when (.PSHeapSummary h) s).count_kind
          .EventPSHeapSummary
        = s.count_kind .EventPSHeapSummary +
            (if t.should_commit .EventPSHeapSummary then 1 else 0) := by
    intro t
    simp only [TraceSink.count_kind, key t]
    by_cases h1 : t.should_commit .EventGCHeapSummary = true <;>
      by_cases h2 : t.should_commit .EventPSHeapSummary = true <;>
      simp [h1, h2, expected_heap_event, expected_ps_heap_event, TraceEvent.kind]
  have cnt_base : ∀ t : Tracing,
      (self.send_gc_heap_summary_event t when (.PSHeapSummary h) s).count_kind
          .EventGCHeapSummary
        = s.count_kind .EventGCHeapSummary +
            (if t.should_commit .EventGCHeapSummary then 1 else 0) := by
    intro t
    simp only [TraceSink.count_kind, key t]
    by_cases h1 : t.should_commit .EventGCHeapSummary = true <;>
      by_cases h2 : t.should_commit .EventPSHeapSummary = true <;>
      simp [h1, h2, expected_heap_event, expected_ps_heap_event, TraceEvent.kind]
  have only_ps : tr.should_commit .EventPSHeapSummary = true →
      tr.should_commit .EventGCHeapSummary = false →
      (self.send_gc_heap_summary_event tr when (.PSHeapSummary h) s).committed
        = s.committed ++ [expected_ps_heap_event tr self._shared_gc_info.id when h] := by
    intro hps hb
    simpa [hps, hb] using key tr
  refine ⟨?_, ?_, ?_, u1_of_lt, ?_, ?_⟩
  · simpa [expected_heap_event, expected_ps_heap_event, u1, TraceAddress,
      VirtualSpaceSummary.to_trace_struct, SpaceSummary.to_trace_struct] using key tr
  · intro hps hb
    refine ⟨?_, ?_⟩
    · simpa [expected_ps_heap_event, u1, TraceAddress, VirtualSpaceSummary.to_trace_struct,
        SpaceSummary.to_trace_struct] using only_ps hps hb
    · simp [GCTracer.send_gc_heap_summary_event, HeapSummary.accept, visit_ps_eq, hps, hb]
  · intro hps hb hw ho hos hy he hf ht
    rw [only_ps hps hb]
    simp only [expected_ps_heap_event, VirtualSpaceSummary.to_trace_struct,
      SpaceSummary.to_trace_struct, u1_of_lt hw,
      TraceAddress_of_lt tr ho.1, TraceAddress_of_lt tr ho.2.1, TraceAddress_of_lt tr ho.2.2,
      TraceAddress_of_lt tr hy.1, TraceAddress_of_lt tr hy.2.1, TraceAddress_of_lt tr hy.2.2,
      TraceAddress_of_lt tr hos.1, TraceAddress_of_lt tr hos.2,
      TraceAddress_of_lt tr he.1, TraceAddress_of_lt tr he.2,
      TraceAddress_of_lt tr hf.1, TraceAddress_of_lt tr hf.2,
      TraceAddress_of_lt tr ht.1, TraceAddress_of_lt tr ht.2]
  · intro tr2 hg
    rw [cnt_ps tr2, cnt_ps tr, hg]
  · intro tr2 hg
    rw [cnt_base tr2, cnt_base tr, hg]

/-- C9 at a concrete summary whose six regions differ from each other and in
every field: with only the specialized gate open, exactly one event is
committed, the specialized one, and it carries each region's own values in
its own place. -/
theorem send_gc_heap_summary_event_ps_only_example :
    (scavenge_tracer.send_gc_heap_summary_event tracing_ps_only 1 (.PSHeapSummary ps_heap_b)
        TraceSink.empty).committed
      = [.PSHeapSummary 7 1 ⟨1000, 1100, 100, 1900, 900⟩ ⟨1001, 1051, 31, 50⟩
           ⟨2000, 2300, 300, 2800, 800⟩ ⟨2001, 2101, 61, 100⟩
           ⟨2102, 2152, 22, 51⟩ ⟨2153, 2203, 13, 52⟩] := by
  refine ((send_gc_heap_summary_event_gates_independent tracing_ps_only scavenge_tracer 1
    ps_heap_b TraceSink.empty).2.2.1 rfl rfl (by decide) ?_ ?_ ?_ ?_ ?_ ?_).trans ?_ <;>
  simp [TraceSink.empty, scavenge_tracer, scavenge_info, ps_heap_b, VirtualSpaceSummary.native,
    SpaceSummary.native, tracing_ps_only]

/-! ## Disabled event classes -/

theorem quiet_visit {tr : Tracing} {k : EventKind} (hoff : tr.should_commit k = false)
    (v : GCHeapSummaryEventSender) (h : GCHeapSummary) {s0 s : TraceSink}
    (hq : s0.Quiet k s) : s0.Quiet k (v.visit tr h s) := by
  unfold GCHeapSummaryEventSender.visit
  split
  · next hk =>
    exact quiet_commit (quiet_count_conversion hq (ne_of_gate hoff hk)) (ne_of_gate hoff hk)
  · exact hq

theorem quiet_visit_ps {tr : Tracing} {k : EventKind} (hoff : tr.should_commit k = false)
    (v : GCHeapSummaryEventSender) (h : PSHeapSummary) {s0 s : TraceSink}
    (hq : s0.Quiet k s) : s0.Quiet k (v.visit_ps tr h s) := by
  unfold GCHeapSummaryEventSender.visit_ps
  have hv := quiet_visit hoff v h.toGCHeapSummary hq
  split
  · next hk =>
    have hne := ne_of_gate hoff hk
    exact quiet_commit (quiet_count_conversion (quiet_count_conversion
      (quiet_count_conversion (quiet_count_conversion (quiet_count_conversion
      (quiet_count_conversion hv hne) hne) hne) hne) hne) hne) hne
  · exact hv

theorem quiet_send_phase {tr : Tracing} {k : EventKind} (hoff : tr.should_commit k = false)
    (r : PhaseSender) (T : PauseEventType) (d : PhaseData) {s0 s : TraceSink}
    (hq : s0.Quiet k s) : s0.Quiet k (r.send_phase tr T d s) := by
  unfold PhaseSender.send_phase
  split
  · next hk => exact quiet_commit hq (ne_of_gate hoff hk)
  · exact hq

/-- C1: when `should_commit()` of an event class answers false, no emission
operation commits an event of that class or calls a `to_trace_struct`
converter for one; this holds for each single-event operation, for both
heap-summary visits and the dispatch on top of them, for the perm-gen
summary, for `send_phase<T>` and for `send_phase_events`. -/
theorem disabled_event_class_does_no_work
    (tr : Tracing) (k : EventKind) (hoff : tr.should_commit k = false) :
    (∀ (t : GCTracer) (s : TraceSink), s.Quiet k (t.send_garbage_collection_event tr s)) ∧
    (∀ (t : GCTracer) (type count : Nat) (s : TraceSink),
      s.Quiet k (t.send_reference_stats_event tr type count s)) ∧
    (∀ (t : ParallelOldTracer) (s : TraceSink), s.Quiet k (t.send_parallel_old_event tr s)) ∧
    (∀ (t : YoungGCTracer) (s : TraceSink), s.Quiet k (t.send_young_gc_event tr s)) ∧
    (∀ (t : OldGCTracer) (s : TraceSink), s.Quiet k (t.send_old_gc_event tr s)) ∧
    (∀ (t : YoungGCTracer) (pf_info : PromotionFailedInfo) (s : TraceSink),
      s.Quiet k (t.send_promotion_failed_event tr pf_info s)) ∧
    (∀ (t : CMSTracer) (s : TraceSink),
      s.Quiet k (t.send_concurrent_mode_failure_event tr s)) ∧
    (∀ (t : G1NewTracer) (s : TraceSink), s.Quiet k (t.send_g1_young_gc_event tr s)) ∧
    (∀ (v : GCHeapSummaryEventSender) (h : GCHeapSummary) (s : TraceSink),
      s.Quiet k (v.visit tr h s)) ∧
    (∀ (v : GCHeapSummaryEventSender) (h : PSHeapSummary) (s : TraceSink),
      s.Quiet k (v.visit_ps tr h s)) ∧
    (∀ (t : GCTracer) (when : Nat) (h : HeapSummary) (s : TraceSink),
      s.Quiet k (t.send_gc_heap_summary_event tr when h s)) ∧
    (∀ (t : GCTracer) (when : Nat) (p : PermGenSummary) (s : TraceSink),
      s.Quiet k (t.send_perm_gen_summary_event tr when p s)) ∧
    (∀ (r : PhaseSender) (T : PauseEventType) (d : PhaseData) (s : TraceSink),
      s.Quiet k (r.send_phase tr T d s)) ∧
    (∀ (t : GCTracer) (phases : List GCPhase) (s : TraceSink),
      s.Quiet k (t.send_phase_events tr phases s).sink) := by
  refine ⟨?_, ?_, ?_, ?_, ?_, ?_, ?_, ?_, ?_, ?_, ?_, ?_, ?_, ?_⟩
  · intro t s
    unfold GCTracer.send_garbage_collection_event
    split
    · next hk => exact quiet_commit (quiet_refl k s) (ne_of_gate hoff hk)
    · exact quiet_refl k s
  · intro t type count s
    unfold GCTracer.send_reference_stats_event
    split
    · next hk => exact quiet_commit (quiet_refl k s) (ne_of_gate hoff hk)
    · exact quiet_refl k s
  · intro t s
    unfold ParallelOldTracer.send_parallel_old_event
    split
    · next hk => exact quiet_commit (quiet_refl k s) (ne_of_gate hoff hk)
    · exact quiet_refl k s
  · intro t s
    unfold YoungGCTracer.send_young_gc_event
    split
    · next hk => exact quiet_commit (quiet_refl k s) (ne_of_gate hoff hk)
    · exact quiet_refl k s
  · intro t s
    unfold OldGCTracer.send_old_gc_event
    split
    · next hk => exact quiet_commit (quiet_refl k s) (ne_of_gate hoff hk)
    · exact quiet_refl k s
  · intro t pf_info s
    unfold YoungGCTracer.send_promotion_failed_event
    split
    · next hk =>
      exact quiet_commit (quiet_count_conversion (quiet_refl k s) (ne_of_gate hoff hk))
        (ne_of_gate hoff hk)
    · exact quiet_refl k s
  · intro t s
    unfold CMSTracer.send_concurrent_mode_failure_event
    split
    · next hk => exact quiet_commit (quiet_refl k s) (ne_of_gate hoff hk)
    · exact quiet_refl k s
  · intro t s
    unfold G1NewTracer.send_g1_young_gc_event
    split
    · next hk => exact quiet_commit (quiet_refl k s) (ne_of_gate hoff hk)
    · exact quiet_refl k s
  · intro v h s
    exact quiet_visit hoff v h (quiet_refl k s)
  · intro v h s
    exact quiet_visit_ps hoff v h (quiet_refl k s)
  · intro t when h s
    cases h with
    | GCHeapSummary h => exact quiet_visit hoff _ h (quiet_refl k s)
    | PSHeapSummary h => exact quiet_visit_ps hoff _ h (quiet_refl k s)
  · intro t when p s
    unfold GCTracer.send_perm_gen_summary_event
    split
    · next hk =>
      have hne := ne_of_gate hoff hk
      exact quiet_commit (quiet_count_conversion (quiet_count_conversion (quiet_refl k s)
        hne) hne) hne
    · exact quiet_refl k s
  · intro r T d s
    exact quiet_send_phase hoff r T d (quiet_refl k s)
  · intro t phases s
    simp only [GCTracer.send_phase_events, send_phase_events_loop_spec]
    refine ⟨_, [], ⟨rfl, by simp⟩, ?_, by simp⟩
    intro e he
    obtain ⟨p, -, hp⟩ := List.mem_filterMap.mp he
    exact ne_of_gate hoff (expected_phase_event_wanted hp)

/-- C1 at concrete calls, with the gate of every event class closed: the
promotion-failed event, the visit of a multi-generation summary and a level-0
pause phase each leave the sink untouched. -/
theorem disabled_event_class_does_no_work_example :
    tracing_none.should_commit .EventPromotionFailed = false ∧
    TraceSink.empty.Quiet .EventPromotionFailed
      ((⟨scavenge_tracer, 3⟩ : YoungGCTracer).send_promotion_failed_event tracing_none
        ⟨failure_3⟩ TraceSink.empty) ∧
    (⟨scavenge_tracer, 3⟩ : YoungGCTracer).send_promotion_failed_event tracing_none
        ⟨failure_3⟩ TraceSink.empty = TraceSink.empty ∧
    (⟨7, 1⟩ : GCHeapSummaryEventSender).visit_ps tracing_none ps_heap_a TraceSink.empty
      = TraceSink.empty ∧
    (⟨7⟩ : PhaseSender).send_phase tracing_none .EventGCPhasePause ⟨"p0", 0, 10, 50⟩
        TraceSink.empty = TraceSink.empty :=
  ⟨rfl,
    (disabled_event_class_does_no_work tracing_none .EventPromotionFailed rfl).2.2.2.2.2.1
      _ ⟨failure_3⟩ TraceSink.empty,
    rfl, rfl, rfl⟩

/-! ## The cycle identifier -/

theorem tagged_visit (tr : Tracing) (v : GCHeapSummaryEventSender) (h : GCHeapSummary)
    {s0 s : TraceSink} (hq : s0.Tagged v._id s) : s0.Tagged v._id (v.visit tr h s) := by
  unfold GCHeapSummaryEventSender.visit
  split
  · exact tagged_commit (tagged_count_conversion hq _) rfl
  · exact hq

theorem tagged_visit_ps (tr : Tracing) (v : GCHeapSummaryEventSender) (h : PSHeapSummary)
    {s0 s : TraceSink} (hq : s0.Tagged v._id s) : s0.Tagged v._id (v.visit_ps tr h s) := by
  unfold GCHeapSummaryEventSender.visit_ps
  have hv := tagged_visit tr v h.toGCHeapSummary hq
  split
  · exact tagged_commit (tagged_count_conversion (tagged_count_conversion
      (tagged_count_conversion (tagged_count_conversion (tagged_count_conversion
      (tagged_count_conversion hv _) _) _) _) _) _) rfl
  · exact hv

/-- C2: under every gate configuration, every event committed by an emission
operation of a tracer whose shared cycle info has identifier X has gcId X:
the cycle events, reference statistics, the failure events, the base and the
specialized heap summary, the perm-gen summary, and every pause-phase event of
`send_phase_events`, on every traversal. -/
theorem committed_events_carry_cycle_id (tr : Tracing) :
    (∀ (t : GCTracer) (s : TraceSink),
      s.Tagged t._shared_gc_info.id (t.send_garbage_collection_event tr s)) ∧
    (∀ (t : GCTracer) (type count : Nat) (s : TraceSink),
      s.Tagged t._shared_gc_info.id (t.send_reference_stats_event tr type count s)) ∧
    (∀ (t : ParallelOldTracer) (s : TraceSink),
      s.Tagged t._shared_gc_info.id (t.send_parallel_old_event tr s)) ∧
    (∀ (t : YoungGCTracer) (s : TraceSink),
      s.Tagged t._shared_gc_info.id (t.send_young_gc_event tr s)) ∧
    (∀ (t : OldGCTracer) (s : TraceSink),
      s.Tagged t._shared_gc_info.id (t.send_old_gc_event tr s)) ∧
    (∀ (t : YoungGCTracer) (pf_info : PromotionFailedInfo) (s : TraceSink),
      s.Tagged t._shared_gc_info.id (t.send_promotion_failed_event tr pf_info s)) ∧
    (∀ (t : CMSTracer) (s : TraceSink),
      s.Tagged t._shared_gc_info.id (t.send_concurrent_mode_failure_event tr s)) ∧
    (∀ (t : G1NewTracer) (s : TraceSink),
      s.Tagged t._shared_gc_info.id (t.send_g1_young_gc_event tr s)) ∧
    (∀ (t : GCTracer) (when : Nat) (h : HeapSummary) (s : TraceSink),
      s.Tagged t._shared_gc_info.id (t.send_gc_heap_summary_event tr when h s)) ∧
    (∀ (t : GCTracer) (when : Nat) (p : PermGenSummary) (s : TraceSink),
      s.Tagged t._shared_gc_info.id (t.send_perm_gen_summary_event tr when p s)) ∧
    (∀ (t : GCTracer) (phases : List GCPhase) (s : TraceSink),
      s.Tagged t._shared_gc_info.id (t.send_phase_events tr phases s).sink) := by
  refine ⟨?_, ?_, ?_, ?_, ?_, ?_, ?_, ?_, ?_, ?_, ?_⟩
  · intro t s
    unfold GCTracer.send_garbage_collection_event
    split
    · exact tagged_commit (tagged_refl _ s) rfl
    · exact tagged_refl _ s
  · intro t type count s
    unfold GCTracer.send_reference_stats_event
    split
    · exact tagged_commit (tagged_refl _ s) rfl
    · exact tagged_refl _ s
  · intro t s
    unfold ParallelOldTracer.send_parallel_old_event
    split
    · exact tagged_commit (tagged_refl _ s) rfl
    · exact tagged_refl _ s
  · intro t s
    unfold YoungGCTracer.send_young_gc_event
    split
    · exact tagged_commit (tagged_refl _ s) rfl
    · exact tagged_refl _ s
  · intro t s
    unfold OldGCTracer.send_old_gc_event
    split
    · exact tagged_commit (tagged_refl _ s) rfl
    · exact tagged_refl _ s
  · intro t pf_info s
    unfold YoungGCTracer.send_promotion_failed_event
    split
    · exact tagged_commit (tagged_count_conversion (tagged_refl _ s) _) rfl
    · exact tagged_refl _ s
  · intro t s
    unfold CMSTracer.send_concurrent_mode_failure_event
    split
    · exact tagged_commit (tagged_refl _ s) rfl
    · exact tagged_refl _ s
  · intro t s
    unfold G1NewTracer.send_g1_young_gc_event
    split
    · exact tagged_commit (tagged_refl _ s) rfl
    · exact tagged_refl _ s
  · intro t when h s
    cases h with
    | GCHeapSummary h =>
      exact tagged_visit tr ⟨t._shared_gc_info.id, when⟩ h (tagged_refl _ s)
    | PSHeapSummary h =>
      exact tagged_visit_ps tr ⟨t._shared_gc_info.id, when⟩ h (tagged_refl _ s)
  · intro t when p s
    unfold GCTracer.send_perm_gen_summary_event
    split
    · exact tagged_commit (tagged_count_conversion (tagged_count_conversion
        (tagged_refl _ s) _) _) rfl
    · exact tagged_refl _ s
  · intro t phases s
    simp only [GCTracer.send_phase_events, send_phase_events_loop_spec]
    refine ⟨_, [], ⟨rfl, by simp⟩, ?_⟩
    intro e he
    obtain ⟨p, -, hp⟩ := List.mem_filterMap.mp he
    exact expected_phase_event_gcId hp

end GCTraceSend
